import Mathlib

/-!
Verification of `homeassistant/components/command_line/switch.py`
(`CommandSwitch`): a shell-command-driven on/off switch entity.

The class methods `_switch`, `_query_state_value`, `_query_state_code`,
`_query_state`, `_update_entity_state`, `_async_update`, `async_turn_on`
and `async_turn_off` are embedded as pure state transformers over a
`CommandSwitch` record.  External shell execution is an oracle (`Env`);
log output and host-framework notifications are returned explicitly as
lists so that theorems can talk about them.
-/

namespace CommandLineSwitch

/-- Log levels of the `LOGGER.info` / `LOGGER.warning` / `LOGGER.error`
calls that appear in `switch.py`. -/
inductive LogLevel
  | info
  | warning
  | error
  deriving DecidableEq

/-- The log messages emitted by `switch.py` itself, with the data
interpolated into each message kept as constructor arguments. -/
inductive LogEntry
  | runningCommand (cmd : String)
  | commandFailed (cmd : String)
  | runningStateValue (cmd : String)
  | runningStateCode (cmd : String)
  | updateTookLonger (name : String) (interval : Nat)
  deriving DecidableEq

/-- Level of each log message, as written in `switch.py`. -/
def LogEntry.level : LogEntry → LogLevel
  | .runningCommand _ => .info
  | .commandFailed _ => .error
  | .runningStateValue _ => .info
  | .runningStateCode _ => .info
  | .updateTookLonger _ _ => .warning

/-- Outbound calls to the host entity framework made by `CommandSwitch`:
`async_schedule_update_ha_state()`, `async_update_ha_state(force)` and
`_process_manual_data(payload)`. -/
inductive HostEvent
  | scheduleUpdate
  | updateHaState (force : Bool)
  | processManualData (payload : String)
  deriving DecidableEq

/-- Modelled from the spec: the process-execution collaborator
(`call_shell_with_timeout` and `check_output_or_log` from the
integration's `utils` module, which is not part of the embedded source).
`exitCode cmd timeout` is the exit code returned by
`call_shell_with_timeout` (a timeout is reported as a non-zero, hence
failing, exit code, per the spec: a killed or timed-out process is never
success).  `captureOut cmd timeout` is the result of
`check_output_or_log`: the trimmed standard output on success, or
`none` when the command fails (non-zero exit or timeout). -/
structure Env where
  exitCode : String → Nat → Int
  captureOut : String → Nat → Option String

/-- A Python value of type `str | bool | None`, the possible results of
`CommandSwitch._query_state`. -/
inductive PyVal
  | vNone
  | vStr (s : String)
  | vBool (b : Bool)
  deriving DecidableEq

/-- Python `str()` applied to a `PyVal`, as in
`payload = str(await self.hass.async_add_executor_job(self._query_state))`. -/
def pyStr : PyVal → String
  | .vNone => "None"
  | .vStr s => s
  | .vBool true => "True"
  | .vBool false => "False"

/-- Python `str.lower()` (applied characterwise, as in
`(value or payload).lower()`). -/
def strLower (s : String) : String := String.mk (s.data.map Char.toLower)

/-- Python truthiness of a `str`: non-empty. -/
def truthyStr (s : String) : Bool := s != ""

/-- Python truthiness of a `str | None`: present and non-empty. -/
def truthyOpt : Option String → Bool
  | none => false
  | some s => s != ""

/-- Python `value or payload` for `value : str | None` and
`payload : str`: `value` when truthy, else `payload`. -/
def pyOrSelect : Option String → String → String
  | some v, p => if v = "" then p else v
  | none, p => p

/-- The state of one `CommandSwitch` entity: its configuration fields and
mutable attributes, as set up in `CommandSwitch.__init__`.  The value
template is modelled, per the spec, as an injected pure function
`render : String → Option String` standing for
`async_render_with_possible_json_value(payload, None)` (which yields the
default `None` when rendering fails). -/
structure CommandSwitch where
  name : String
  command_on : String
  command_off : String
  command_state : Option String
  value_template : Option (String → Option String)
  timeout : Nat
  scan_interval : Nat
  attr_is_on : Option Bool
  process_updates : Option Bool

/-- `CommandSwitch.__init__`: stores the configuration and sets
`self._attr_is_on = False` and `self._process_updates = None`. -/
def CommandSwitch.init (name command_on command_off : String)
    (command_state : Option String)
    (value_template : Option (String → Option String))
    (timeout scan_interval : Nat) : CommandSwitch :=
  { name := name
    command_on := command_on
    command_off := command_off
    command_state := command_state
    value_template := value_template
    timeout := timeout
    scan_interval := scan_interval
    attr_is_on := some false
    process_updates := none }

/-- Python truthiness of `self._command_state : str | None`. -/
def CommandSwitch.commandStateTruthy (sw : CommandSwitch) : Bool :=
  match sw.command_state with
  | some s => s != ""
  | none => false

/-- `CommandSwitch._switch(command)`: run the action command for its exit
code, log the command at info level, and log an error when it fails;
return whether the exit code was zero. -/
def CommandSwitch.doSwitch (env : Env) (sw : CommandSwitch) (command : String) :
    Bool × List LogEntry :=
  let success := env.exitCode command sw.timeout == 0
  (success,
    if success then [.runningCommand command]
    else [.runningCommand command, .commandFailed command])

/-- `CommandSwitch._query_state_value(command)`: run the state command
with stdout captured (`check_output_or_log`). -/
def CommandSwitch.query_state_value (env : Env) (sw : CommandSwitch)
    (command : String) : Option String × List LogEntry :=
  (env.captureOut command sw.timeout, [.runningStateValue command])

/-- `CommandSwitch._query_state_code(command)`: run the state command for
its exit code only. -/
def CommandSwitch.query_state_code (env : Env) (sw : CommandSwitch)
    (command : String) : Bool × List LogEntry :=
  (env.exitCode command sw.timeout == 0, [.runningStateCode command])

/-- `CommandSwitch._query_state()`: when `self._command_state` is truthy,
use `_query_state_value` if a value template is configured, else
`_query_state_code`; otherwise (implicitly) return `None`. -/
def CommandSwitch.query_state (env : Env) (sw : CommandSwitch) :
    PyVal × List LogEntry :=
  match sw.command_state with
  | some cmd =>
    if cmd = "" then (.vNone, [])
    else
      match sw.value_template with
      | some _ =>
        let r := sw.query_state_value env cmd
        (match r.1 with
         | none => .vNone
         | some s => .vStr s, r.2)
      | none =>
        let r := sw.query_state_code env cmd
        (.vBool r.1, r.2)
  | none => (.vNone, [])

/-- `CommandSwitch.assumed_state`: true iff `self._command_state is None`. -/
def CommandSwitch.assumed_state (sw : CommandSwitch) : Bool :=
  sw.command_state.isNone

/-- `CommandSwitch._async_update()`: when `self._command_state` is truthy,
query the state, stringify the result as `payload`, render the value
template on it when configured, reset `_attr_is_on` to `None`, and when
`payload or value` is truthy set `_attr_is_on` to whether
`(value or payload).lower() == "true"`; then call
`_process_manual_data(payload)` and `async_update_ha_state(True)`. -/
def CommandSwitch.async_update (env : Env) (sw : CommandSwitch) :
    CommandSwitch × List LogEntry × List HostEvent :=
  if sw.commandStateTruthy then
    let q := sw.query_state env
    let payload := pyStr q.1
    let value : Option String :=
      match sw.value_template with
      | some render => render payload
      | none => none
    let is_on : Option Bool :=
      if truthyStr payload || truthyOpt value then
        some (strLower (pyOrSelect value payload) == "true")
      else none
    ({ sw with attr_is_on := is_on }, q.2,
      [.processManualData payload, .updateHaState true])
  else (sw, [], [])

/-- `CommandSwitch._update_entity_state(now)`: lazily create the
per-entity `asyncio.Lock`; if it is held, log a warning naming the
entity and its scan interval and drop the attempt; otherwise run
`_async_update` while holding the lock, releasing it afterwards.  The
lock is modelled as `Option Bool`: `none` = not yet created,
`some held`. -/
def CommandSwitch.update_entity_state (env : Env) (sw : CommandSwitch) :
    CommandSwitch × List LogEntry × List HostEvent :=
  let sw0 := if sw.process_updates.isNone
             then { sw with process_updates := some false } else sw
  match sw0.process_updates with
  | some true =>
    (sw0, [.updateTookLonger sw0.name sw0.scan_interval], [])
  | _ =>
    let sw1 := { sw0 with process_updates := some true }
    let r := sw1.async_update env
    ({ r.1 with process_updates := some false }, r.2.1, r.2.2)

/-- `CommandSwitch.async_turn_on()`: run `_switch(self._command_on)`; if
it succeeded and `self._command_state` is falsy, set
`self._attr_is_on = True` and schedule a host state update; then call
`_update_entity_state(None)`. -/
def CommandSwitch.turn_on (env : Env) (sw : CommandSwitch) :
    CommandSwitch × List LogEntry × List HostEvent :=
  let s := sw.doSwitch env sw.command_on
  let optimistic := s.1 && !sw.commandStateTruthy
  let sw1 := if optimistic then { sw with attr_is_on := some true } else sw
  let ev1 : List HostEvent := if optimistic then [.scheduleUpdate] else []
  let r := sw1.update_entity_state env
  (r.1, s.2 ++ r.2.1, ev1 ++ r.2.2)

/-- `CommandSwitch.async_turn_off()`: symmetric to `async_turn_on`, using
`self._command_off` and setting `self._attr_is_on = False`. -/
def CommandSwitch.turn_off (env : Env) (sw : CommandSwitch) :
    CommandSwitch × List LogEntry × List HostEvent :=
  let s := sw.doSwitch env sw.command_off
  let optimistic := s.1 && !sw.commandStateTruthy
  let sw1 := if optimistic then { sw with attr_is_on := some false } else sw
  let ev1 : List HostEvent := if optimistic then [.scheduleUpdate] else []
  let r := sw1.update_entity_state env
  (r.1, s.2 ++ r.2.1, ev1 ++ r.2.2)

/-- A value template whose rendering always fails (yields the `None`
default of `async_render_with_possible_json_value`). -/
def renderNone : String → Option String := fun _ => none

/-- A value template that always extracts the string `"true"`. -/
def renderTrue : String → Option String := fun _ => some "true"

/-- A world in which every command fails: non-zero exit code, no
captured output. -/
def envFail : Env := { exitCode := fun _ _ => 1, captureOut := fun _ _ => none }

/-- A world in which every command succeeds, printing `hot`. -/
def envOk : Env := { exitCode := fun _ _ => 0, captureOut := fun _ _ => some "hot" }

/-- A switch with no state command (assumed-state mode). -/
def swNoState : CommandSwitch :=
  CommandSwitch.init "sw" "oncmd" "offcmd" none none 15 30

/-- A switch with a state command and no value template (exit-code
mode). -/
def swCode : CommandSwitch :=
  CommandSwitch.init "sw" "oncmd" "offcmd" (some "statecmd") none 15 30

/-- A switch with a state command and a value template that fails to
render. -/
def swTmplNone : CommandSwitch :=
  CommandSwitch.init "sw" "oncmd" "offcmd" (some "statecmd") (some renderNone) 15 30

/-- A switch with a state command and a value template that extracts
`"true"`. -/
def swTmplTrue : CommandSwitch :=
  CommandSwitch.init "sw" "oncmd" "offcmd" (some "statecmd") (some renderTrue) 15 30

/-- `swCode` while a state refresh is in flight (the poll lock is held). -/
def swLocked : CommandSwitch := { swCode with process_updates := some true }

theorem commandStateTruthy_of_none (sw : CommandSwitch)
    (h : sw.command_state = none) : sw.commandStateTruthy = false := by
  simp [CommandSwitch.commandStateTruthy, h]

theorem async_update_of_not_truthy (env : Env) (sw : CommandSwitch)
    (h : sw.commandStateTruthy = false) : sw.async_update env = (sw, [], []) := by
  simp [CommandSwitch.async_update, h]

theorem async_update_command_state (env : Env) (sw : CommandSwitch) :
    (sw.async_update env).1.command_state = sw.command_state := by
  unfold CommandSwitch.async_update
  split <;> rfl

theorem async_update_of_none (env : Env) (sw : CommandSwitch)
    (h : sw.command_state = none) : sw.async_update env = (sw, [], []) :=
  async_update_of_not_truthy env sw (commandStateTruthy_of_none sw h)

theorem update_entity_state_command_state (env : Env) (sw : CommandSwitch) :
    (sw.update_entity_state env).1.command_state = sw.command_state := by
  rcases hp : sw.process_updates with _ | b
  · simp [CommandSwitch.update_entity_state, hp, async_update_command_state]
  · rcases b
    · simp [CommandSwitch.update_entity_state, hp, async_update_command_state]
    · simp [CommandSwitch.update_entity_state, hp]

theorem update_entity_state_attr_of_none (env : Env) (sw : CommandSwitch)
    (h : sw.command_state = none) :
    (sw.update_entity_state env).1.attr_is_on = sw.attr_is_on := by
  rcases hp : sw.process_updates with _ | b
  · simp [CommandSwitch.update_entity_state, hp,
      async_update_of_none env _ (show (⟨sw.name, sw.command_on, sw.command_off,
        sw.command_state, sw.value_template, sw.timeout, sw.scan_interval,
        sw.attr_is_on, some true⟩ : CommandSwitch).command_state = none from h)]
  · rcases b
    · simp [CommandSwitch.update_entity_state, hp,
        async_update_of_none env _ (show (⟨sw.name, sw.command_on, sw.command_off,
          sw.command_state, sw.value_template, sw.timeout, sw.scan_interval,
          sw.attr_is_on, some true⟩ : CommandSwitch).command_state = none from h)]
    · simp [CommandSwitch.update_entity_state, hp]

theorem truthyStr_pyStr_vBool (b : Bool) : truthyStr (pyStr (.vBool b)) = true := by
  cases b <;> rfl

theorem strLower_pyStr_vBool (b : Bool) :
    (strLower (pyStr (.vBool b)) == "true") = b := by
  cases b <;> rfl

theorem query_state_code_mode (env : Env) (sw : CommandSwitch) (cmd : String)
    (hcs : sw.command_state = some cmd) (hne : cmd ≠ "")
    (hvt : sw.value_template = none) :
    sw.query_state env =
      (.vBool (env.exitCode cmd sw.timeout == 0), [.runningStateCode cmd]) := by
  simp [CommandSwitch.query_state, CommandSwitch.query_state_code, hcs, hne, hvt]

theorem query_state_template_mode (env : Env) (sw : CommandSwitch) (cmd : String)
    (render : String → Option String)
    (hcs : sw.command_state = some cmd) (hne : cmd ≠ "")
    (hvt : sw.value_template = some render) :
    sw.query_state env =
      ((match env.captureOut cmd sw.timeout with
        | none => PyVal.vNone
        | some s => PyVal.vStr s), [.runningStateValue cmd]) := by
  simp [CommandSwitch.query_state, CommandSwitch.query_state_value, hcs, hne, hvt]

theorem async_update_code_mode (env : Env) (sw : CommandSwitch) (cmd : String)
    (hcs : sw.command_state = some cmd) (hne : cmd ≠ "")
    (hvt : sw.value_template = none) :
    sw.async_update env =
      ({ sw with attr_is_on := some (env.exitCode cmd sw.timeout == 0) },
       [.runningStateCode cmd],
       [.processManualData (pyStr (.vBool (env.exitCode cmd sw.timeout == 0))),
        .updateHaState true]) := by
  have hq := query_state_code_mode env sw cmd hcs hne hvt
  simp [CommandSwitch.async_update, CommandSwitch.commandStateTruthy, hcs, hne,
    hvt, hq, truthyStr_pyStr_vBool, strLower_pyStr_vBool, pyOrSelect]

theorem async_update_template_mode (env : Env) (sw : CommandSwitch) (cmd : String)
    (render : String → Option String)
    (hcs : sw.command_state = some cmd) (hne : cmd ≠ "")
    (hvt : sw.value_template = some render) :
    sw.async_update env =
      (let payload := pyStr (match env.captureOut cmd sw.timeout with
         | none => PyVal.vNone
         | some s => PyVal.vStr s)
       ({ sw with attr_is_on :=
            if truthyStr payload || truthyOpt (render payload) then
              some (strLower (pyOrSelect (render payload) payload) == "true")
            else none },
        [.runningStateValue cmd],
        [.processManualData payload, .updateHaState true])) := by
  have hq := query_state_template_mode env sw cmd render hcs hne hvt
  simp [CommandSwitch.async_update, CommandSwitch.commandStateTruthy, hcs, hne,
    hvt, hq]

/-- C3: when the per-device poll lock is already held (a previous
refresh-state execution has not completed), a new poll attempt — whether
from the scheduler or caller-initiated — leaves the device state
entirely unchanged, performs no update and emits no host event, and logs
exactly one warning naming the device and its configured scan
interval. -/
theorem poll_guard_drops_when_locked (env : Env) (sw : CommandSwitch)
    (h : sw.process_updates = some true) :
    sw.update_entity_state env =
      (sw, [.updateTookLonger sw.name sw.scan_interval], []) ∧
    (LogEntry.updateTookLonger sw.name sw.scan_interval).level = .warning := by
  constructor
  · unfold CommandSwitch.update_entity_state
    simp [h]
  · rfl

theorem poll_guard_drops_when_locked_witness :
    swLocked.process_updates = some true ∧
    (swLocked.update_entity_state envOk =
      (swLocked, [.updateTookLonger swLocked.name swLocked.scan_interval], []) ∧
     (LogEntry.updateTookLonger swLocked.name swLocked.scan_interval).level = .warning) :=
  ⟨rfl, poll_guard_drops_when_locked envOk swLocked rfl⟩

/-- C4: in assumed-state mode (no state command), a refresh-state call
never changes the cached on/off attribute; and a successful `turn_on`
followed immediately by another refresh still leaves the cached state
`On`. -/
theorem assumed_mode_refresh_noop (env : Env) (sw : CommandSwitch)
    (h : sw.command_state = none)
    (hOn : env.exitCode sw.command_on sw.timeout = 0) :
    (sw.update_entity_state env).1.attr_is_on = sw.attr_is_on ∧
    (sw.turn_on env).1.attr_is_on = some true ∧
    ((sw.turn_on env).1.update_entity_state env).1.attr_is_on = some true := by
  refine ⟨update_entity_state_attr_of_none env sw h, ?_⟩
  have hflip : (sw.turn_on env).1.attr_is_on = some true := by
    unfold CommandSwitch.turn_on CommandSwitch.doSwitch
    simp only [hOn, commandStateTruthy_of_none sw h]
    have := update_entity_state_attr_of_none env { sw with attr_is_on := some true } h
    simpa using this
  refine ⟨hflip, ?_⟩
  have hcs : (sw.turn_on env).1.command_state = none := by
    simp only [CommandSwitch.turn_on]
    rw [update_entity_state_command_state]
    split <;> simpa using h
  rw [update_entity_state_attr_of_none env _ hcs, hflip]

theorem assumed_mode_refresh_noop_witness :
    swNoState.command_state = none ∧
    envOk.exitCode swNoState.command_on swNoState.timeout = 0 ∧
    ((swNoState.update_entity_state envOk).1.attr_is_on = swNoState.attr_is_on ∧
     (swNoState.turn_on envOk).1.attr_is_on = some true ∧
     ((swNoState.turn_on envOk).1.update_entity_state envOk).1.attr_is_on = some true) :=
  ⟨rfl, by decide, assumed_mode_refresh_noop envOk swNoState rfl (by decide)⟩

/-- C10: a freshly constructed switch reports a definite `Off` state:
`__init__` sets the cached on/off attribute to `False`, never to the
unknown `None`. -/
theorem initial_state_is_off (name command_on command_off : String)
    (command_state : Option String)
    (value_template : Option (String → Option String))
    (timeout scan_interval : Nat) :
    (CommandSwitch.init name command_on command_off command_state
        value_template timeout scan_interval).attr_is_on = some false ∧
    (CommandSwitch.init name command_on command_off command_state
        value_template timeout scan_interval).attr_is_on ≠ none :=
  ⟨rfl, by simp [CommandSwitch.init]⟩

theorem pyOrSelect_some_ne (v p : String) (h : v ≠ "") :
    pyOrSelect (some v) p = v := by
  simp [pyOrSelect, h]

theorem pyOrSelect_falsy (v : Option String) (p : String)
    (h : v = none ∨ v = some "") : pyOrSelect v p = p := by
  rcases h with h | h <;> simp [h, pyOrSelect]

theorem truthyOpt_falsy (v : Option String) (h : v = none ∨ v = some "") :
    truthyOpt v = false := by
  rcases h with h | h <;> simp [h, truthyOpt]

/-- C1 (amended): when a value template is configured but extracts no
value, the interpreted signal is the raw command output: the cached
state becomes `On` iff the output equals `"true"` after lowercasing,
`Off` for any other non-empty output, and `Unknown` only for a
present-but-empty output; an absent output (failed capture) is
stringified to `"None"` and therefore yields `Off`, not `Unknown`. -/
theorem raw_output_interpretation (env : Env) (sw : CommandSwitch)
    (cmd : String) (render : String → Option String)
    (hcs : sw.command_state = some cmd) (hne : cmd ≠ "")
    (hvt : sw.value_template = some render)
    (hval : ∀ p : String, render p = none ∨ render p = some "") :
    (sw.async_update env).1.attr_is_on =
      (match env.captureOut cmd sw.timeout with
       | none => some false
       | some s => if s = "" then none else some (strLower s == "true")) := by
  rw [async_update_template_mode env sw cmd render hcs hne hvt]
  rcases hcap : env.captureOut cmd sw.timeout with _ | s
  · simp [pyStr, truthyOpt_falsy _ (hval "None"),
      pyOrSelect_falsy _ _ (hval "None"),
      (show truthyStr "None" = true from rfl),
      (show (strLower "None" == "true") = false from rfl)]
  · by_cases hs : s = ""
    · subst hs
      simp [pyStr, truthyOpt_falsy _ (hval ""),
        (show truthyStr "" = false from rfl)]
    · simp [pyStr, truthyStr, truthyOpt_falsy _ (hval s),
        pyOrSelect_falsy _ _ (hval s), hs]

theorem raw_output_interpretation_witness :
    swTmplNone.command_state = some "statecmd" ∧ ("statecmd" : String) ≠ "" ∧
    swTmplNone.value_template = some renderNone ∧
    (∀ p : String, renderNone p = none ∨ renderNone p = some "") ∧
    (swTmplNone.async_update envOk).1.attr_is_on = some false :=
  ⟨rfl, by decide, rfl, fun _ => Or.inl rfl,
    (raw_output_interpretation envOk swTmplNone "statecmd" renderNone rfl
      (by decide) rfl (fun _ => Or.inl rfl)).trans (by decide)⟩

/-- C1 counterexample: a state command whose output capture fails (absent
output) with a template that extracts nothing yields `Off`
(`some false`), not `Unknown` (`none`) as the claim requires. -/
theorem raw_output_absent_not_unknown :
    (swTmplNone.async_update envFail).1.attr_is_on = some false := by decide

/-- C2 (amended): a failed state-query command (non-zero exit, timeout,
or no captured output) completes without raising but never yields
`Unknown`: with no value template the cached state becomes `Off`; with a
value template the absent capture is stringified to `"None"` and the
state is `On` iff the template extracts `"true"` from it, else `Off`. -/
theorem failed_state_query_behavior (env : Env) (sw : CommandSwitch)
    (cmd : String) (hcs : sw.command_state = some cmd) (hne : cmd ≠ "") :
    (sw.value_template = none → env.exitCode cmd sw.timeout ≠ 0 →
      (sw.async_update env).1.attr_is_on = some false) ∧
    (∀ render, sw.value_template = some render →
      env.captureOut cmd sw.timeout = none →
      (sw.async_update env).1.attr_is_on =
        some (strLower (pyOrSelect (render "None") "None") == "true") ∧
      (sw.async_update env).1.attr_is_on ≠ none) := by
  constructor
  · intro hvt hexit
    rw [async_update_code_mode env sw cmd hcs hne hvt]
    simp [beq_eq_false_iff_ne.mpr hexit]
  · intro render hvt hcap
    rw [async_update_template_mode env sw cmd render hcs hne hvt, hcap]
    simp [pyStr, (show truthyStr "None" = true from rfl)]

theorem failed_state_query_behavior_witness :
    swCode.command_state = some "statecmd" ∧ ("statecmd" : String) ≠ "" ∧
    swCode.value_template = none ∧
    envFail.exitCode "statecmd" swCode.timeout ≠ 0 ∧
    (swCode.async_update envFail).1.attr_is_on = some false :=
  ⟨rfl, by decide, rfl, by decide,
    (failed_state_query_behavior envFail swCode "statecmd" rfl (by decide)).1
      rfl (by decide)⟩

/-- C2 counterexample: a state-query command failing with exit code 1
(and no captured output), with no value template, leaves the cached
state `Off` (`some false`), not `Unknown` (`none`) as the claim
requires. -/
theorem failed_state_query_yields_off :
    (swCode.async_update envFail).1.attr_is_on = some false := by decide

theorem scheduleUpdate_not_in_async_update (env : Env) (sw : CommandSwitch) :
    HostEvent.scheduleUpdate ∉ (sw.async_update env).2.2 := by
  unfold CommandSwitch.async_update
  split <;> simp

theorem scheduleUpdate_not_in_update_entity_state (env : Env)
    (sw : CommandSwitch) :
    HostEvent.scheduleUpdate ∉ (sw.update_entity_state env).2.2 := by
  rcases hp : sw.process_updates with _ | b
  · simp [CommandSwitch.update_entity_state, hp,
      scheduleUpdate_not_in_async_update]
  · rcases b
    · simp [CommandSwitch.update_entity_state, hp,
        scheduleUpdate_not_in_async_update]
    · simp [CommandSwitch.update_entity_state, hp]

/-- C5: when an action command fails (non-zero exit code; a timeout is
reported as such a failure), both `turn_on` and `turn_off` skip the
optimistic flip — the final state is exactly that of running the
refresh on the unchanged switch — log the failure, whose log entry is at
error level, emit no optimistic host notification, and still issue the
refresh-state call. -/
theorem failed_action_command_behavior (env : Env) (sw : CommandSwitch)
    (hOn : env.exitCode sw.command_on sw.timeout ≠ 0)
    (hOff : env.exitCode sw.command_off sw.timeout ≠ 0) :
    sw.turn_on env =
      ((sw.update_entity_state env).1,
       [.runningCommand sw.command_on, .commandFailed sw.command_on]
         ++ (sw.update_entity_state env).2.1,
       (sw.update_entity_state env).2.2) ∧
    sw.turn_off env =
      ((sw.update_entity_state env).1,
       [.runningCommand sw.command_off, .commandFailed sw.command_off]
         ++ (sw.update_entity_state env).2.1,
       (sw.update_entity_state env).2.2) ∧
    LogEntry.commandFailed sw.command_on ∈ (sw.turn_on env).2.1 ∧
    LogEntry.commandFailed sw.command_off ∈ (sw.turn_off env).2.1 ∧
    (LogEntry.commandFailed sw.command_on).level = .error ∧
    HostEvent.scheduleUpdate ∉ (sw.turn_on env).2.2 ∧
    HostEvent.scheduleUpdate ∉ (sw.turn_off env).2.2 := by
  have hbOn : (env.exitCode sw.command_on sw.timeout == 0) = false :=
    beq_eq_false_iff_ne.mpr hOn
  have hbOff : (env.exitCode sw.command_off sw.timeout == 0) = false :=
    beq_eq_false_iff_ne.mpr hOff
  have eqOn : sw.turn_on env =
      ((sw.update_entity_state env).1,
       [.runningCommand sw.command_on, .commandFailed sw.command_on]
         ++ (sw.update_entity_state env).2.1,
       (sw.update_entity_state env).2.2) := by
    simp [CommandSwitch.turn_on, CommandSwitch.doSwitch, hbOn]
  have eqOff : sw.turn_off env =
      ((sw.update_entity_state env).1,
       [.runningCommand sw.command_off, .commandFailed sw.command_off]
         ++ (sw.update_entity_state env).2.1,
       (sw.update_entity_state env).2.2) := by
    simp [CommandSwitch.turn_off, CommandSwitch.doSwitch, hbOff]
  refine ⟨eqOn, eqOff, ?_, ?_, rfl, ?_, ?_⟩
  · rw [eqOn]; simp
  · rw [eqOff]; simp
  · rw [eqOn]
    exact scheduleUpdate_not_in_update_entity_state env sw
  · rw [eqOff]
    exact scheduleUpdate_not_in_update_entity_state env sw

theorem failed_action_command_behavior_witness :
    envFail.exitCode swCode.command_on swCode.timeout ≠ 0 ∧
    envFail.exitCode swCode.command_off swCode.timeout ≠ 0 ∧
    LogEntry.commandFailed swCode.command_on ∈ (swCode.turn_on envFail).2.1 ∧
    (LogEntry.commandFailed swCode.command_on).level = .error :=
  ⟨by decide, by decide,
    (failed_action_command_behavior envFail swCode (by decide) (by decide)).2.2.1,
    (failed_action_command_behavior envFail swCode (by decide)
      (by decide)).2.2.2.2.1⟩

/-- C6: `turn_on` runs the on command for its exit code; on success in
assumed-state mode (no state command) it sets the cached state to `On`
and schedules a host state update before unconditionally invoking the
poll-guarded refresh; `turn_off` is symmetric, setting `Off`. -/
theorem optimistic_action_success (env : Env) (sw : CommandSwitch)
    (h : sw.command_state = none)
    (hOn : env.exitCode sw.command_on sw.timeout = 0)
    (hOff : env.exitCode sw.command_off sw.timeout = 0) :
    sw.turn_on env =
      (({ sw with attr_is_on := some true }.update_entity_state env).1,
       [.runningCommand sw.command_on]
         ++ ({ sw with attr_is_on := some true }.update_entity_state env).2.1,
       [.scheduleUpdate]
         ++ ({ sw with attr_is_on := some true }.update_entity_state env).2.2) ∧
    sw.turn_off env =
      (({ sw with attr_is_on := some false }.update_entity_state env).1,
       [.runningCommand sw.command_off]
         ++ ({ sw with attr_is_on := some false }.update_entity_state env).2.1,
       [.scheduleUpdate]
         ++ ({ sw with attr_is_on := some false }.update_entity_state env).2.2) := by
  have hbOn : (env.exitCode sw.command_on sw.timeout == 0) = true :=
    beq_iff_eq.mpr hOn
  have hbOff : (env.exitCode sw.command_off sw.timeout == 0) = true :=
    beq_iff_eq.mpr hOff
  constructor
  · simp [CommandSwitch.turn_on, CommandSwitch.doSwitch, hbOn,
      commandStateTruthy_of_none sw h]
  · simp [CommandSwitch.turn_off, CommandSwitch.doSwitch, hbOff,
      commandStateTruthy_of_none sw h]

theorem optimistic_action_success_witness :
    swNoState.command_state = none ∧
    envOk.exitCode swNoState.command_on swNoState.timeout = 0 ∧
    envOk.exitCode swNoState.command_off swNoState.timeout = 0 ∧
    swNoState.turn_on envOk =
      ({ swNoState with attr_is_on := some true, process_updates := some false },
       [.runningCommand "oncmd"], [.scheduleUpdate]) :=
  ⟨rfl, by decide, by decide,
    ((optimistic_action_success envOk swNoState rfl (by decide)
      (by decide)).1).trans rfl⟩

/-- C7: when the configured value template extracts `"true"` from the
stringified query payload, the cached state becomes `On`, whatever the
raw output was — the extracted value is the signal compared against
`"true"`. -/
theorem extracted_value_preferred (env : Env) (sw : CommandSwitch)
    (cmd : String) (render : String → Option String)
    (hcs : sw.command_state = some cmd) (hne : cmd ≠ "")
    (hvt : sw.value_template = some render)
    (hr : render (pyStr (match env.captureOut cmd sw.timeout with
            | none => PyVal.vNone
            | some s => PyVal.vStr s)) = some "true") :
    (sw.async_update env).1.attr_is_on = some true := by
  rw [async_update_template_mode env sw cmd render hcs hne hvt]
  simp [hr, pyOrSelect_some_ne "true" _ (by decide),
    (show truthyOpt (some "true") = true from rfl),
    (show (strLower "true" == "true") = true from rfl)]

theorem extracted_value_preferred_witness :
    swTmplTrue.command_state = some "statecmd" ∧ ("statecmd" : String) ≠ "" ∧
    swTmplTrue.value_template = some renderTrue ∧
    renderTrue (pyStr (match envOk.captureOut "statecmd" swTmplTrue.timeout with
      | none => PyVal.vNone
      | some s => PyVal.vStr s)) = some "true" ∧
    (swTmplTrue.async_update envOk).1.attr_is_on = some true :=
  ⟨rfl, by decide, rfl, rfl,
    extracted_value_preferred envOk swTmplTrue "statecmd" renderTrue rfl
      (by decide) rfl rfl⟩

/-- C8: with a truthy state command, when a value template is configured
the state query captures stdout (`check_output_or_log`) and the update
runs it (stringified) through the extractor; with no template the query
runs the command in exit-code mode only, and the update result is
independent of the capture oracle entirely. -/
theorem query_mode_selection (sw : CommandSwitch) (cmd : String)
    (hcs : sw.command_state = some cmd) (hne : cmd ≠ "") :
    (∀ (env : Env) (render : String → Option String),
      sw.value_template = some render →
      sw.query_state env =
        ((match env.captureOut cmd sw.timeout with
          | none => PyVal.vNone
          | some s => PyVal.vStr s), [.runningStateValue cmd]) ∧
      (sw.async_update env).1.attr_is_on =
        (let payload := pyStr (match env.captureOut cmd sw.timeout with
           | none => PyVal.vNone
           | some s => PyVal.vStr s)
         if truthyStr payload || truthyOpt (render payload) then
           some (strLower (pyOrSelect (render payload) payload) == "true")
         else none)) ∧
    (sw.value_template = none →
      (∀ env : Env, sw.query_state env =
        (.vBool (env.exitCode cmd sw.timeout == 0), [.runningStateCode cmd])) ∧
      (∀ env₁ env₂ : Env, env₁.exitCode = env₂.exitCode →
        sw.async_update env₁ = sw.async_update env₂)) := by
  constructor
  · intro env render hvt
    refine ⟨query_state_template_mode env sw cmd render hcs hne hvt, ?_⟩
    rw [async_update_template_mode env sw cmd render hcs hne hvt]
  · intro hvt
    refine ⟨fun env => query_state_code_mode env sw cmd hcs hne hvt, ?_⟩
    intro env₁ env₂ he
    rw [async_update_code_mode env₁ sw cmd hcs hne hvt,
      async_update_code_mode env₂ sw cmd hcs hne hvt, he]

theorem query_mode_selection_witness :
    swCode.command_state = some "statecmd" ∧ ("statecmd" : String) ≠ "" ∧
    swCode.value_template = none ∧
    swCode.query_state envOk = (.vBool true, [.runningStateCode "statecmd"]) :=
  ⟨rfl, by decide, rfl,
    (((query_mode_selection swCode "statecmd" rfl (by decide)).2 rfl).1
      envOk).trans (by decide)⟩

/-- C9: with a truthy state command and no value template, a state update
sets the cached state to `On` exactly when the command's exit code is 0
and to `Off` otherwise; the result is never `Unknown`, and the whole
update is independent of the output-capture oracle (the textual output
is never examined). -/
theorem code_mode_refresh (env : Env) (sw : CommandSwitch) (cmd : String)
    (hcs : sw.command_state = some cmd) (hne : cmd ≠ "")
    (hvt : sw.value_template = none) :
    (sw.async_update env).1.attr_is_on =
      some (env.exitCode cmd sw.timeout == 0) ∧
    (sw.async_update env).1.attr_is_on ≠ none ∧
    (∀ env₂ : Env, env₂.exitCode = env.exitCode →
      sw.async_update env₂ = sw.async_update env) := by
  refine ⟨?_, ?_, ?_⟩
  · rw [async_update_code_mode env sw cmd hcs hne hvt]
  · rw [async_update_code_mode env sw cmd hcs hne hvt]
    simp
  · intro env₂ he
    rw [async_update_code_mode env sw cmd hcs hne hvt,
      async_update_code_mode env₂ sw cmd hcs hne hvt, he]

theorem code_mode_refresh_witness :
    swCode.command_state = some "statecmd" ∧ ("statecmd" : String) ≠ "" ∧
    swCode.value_template = none ∧
    (swCode.async_update envOk).1.attr_is_on = some true :=
  ⟨rfl, by decide, rfl,
    ((code_mode_refresh envOk swCode "statecmd" rfl (by decide) rfl).1).trans
      (by decide)⟩

end CommandLineSwitch
